import Mathlib

/-!
# Femora client orchestration layer: a shallow embedding

This file embeds the service layer of the Femora mobile app in Lean 4:

* `MoraService` — the remote assistant client (`src/services/moraService.ts`);
* `UserService` — the user-scoped Firestore adapter (`src/services/userService.ts`);
* `AskMora` — the chat screen controller (`src/components/AskMora.tsx`);
* `BreastScan` — the scan capture orchestrator (the camera screen component).

Effects are made explicit: the Firestore database is a value threaded through
each operation, wall-clock time and random identifiers are parameters, and each
fallible SDK/network call is parameterised by its outcome (an injected
`FetchOutcome` or `Option String` failure).  JavaScript `Date` values are
modelled as `Nat` (milliseconds since the epoch unless stated otherwise).
-/

namespace Femora

/-- JavaScript `a || b` for an optional string `a`: the empty string is falsy,
so it falls through to `b` just like `null`/`undefined` do. -/
def jsOr (a : Option String) (b : Option String) : Option String :=
  match a with
  | some s => if s = "" then b else some s
  | none => b

/-- JavaScript `a || d` where `a : string | null | undefined` and `d` is a
plain string default. -/
def jsOrD (a : Option String) (d : String) : String :=
  match a with
  | some s => if s = "" then d else s
  | none => d

/-- JavaScript `String.prototype.trim()`: strip leading and trailing
whitespace.  Defined over the character list by structural recursion so that
it evaluates inside the kernel. -/
def jsTrim (s : String) : String :=
  String.mk
    (((s.data.dropWhile Char.isWhitespace).reverse.dropWhile
      Char.isWhitespace).reverse)

/-- Replace the value stored under `k`, or append `(k, v)` when `k` is absent.
Models Firestore `setDoc` at a fixed document path. -/
def setEntry {α β : Type} [DecidableEq α] (k : α) (v : β) :
    List (α × β) → List (α × β)
  | [] => [(k, v)]
  | (k', v') :: rest => if k = k' then (k, v) :: rest else (k', v') :: setEntry k v rest

/-- Look up the value stored under `k`.  Models Firestore `getDoc`. -/
def getEntry {α β : Type} [DecidableEq α] (k : α) : List (α × β) → Option β
  | [] => none
  | (k', v') :: rest => if k = k' then some v' else getEntry k rest

/-- Insert `x` into a list assumed sorted descending on `key`, keeping the
descending order.  Building block for the Firestore `orderBy(_, 'desc')`
queries. -/
def insertByKeyDesc {α : Type} (key : α → Nat) (x : α) : List α → List α
  | [] => [x]
  | y :: ys => if key y ≤ key x then x :: y :: ys else y :: insertByKeyDesc key x ys

/-- Insertion sort, descending on `key`.  Models `orderBy(field, 'desc')`. -/
def sortByKeyDesc {α : Type} (key : α → Nat) : List α → List α
  | [] => []
  | x :: xs => insertByKeyDesc key x (sortByKeyDesc key xs)

/-! ## Remote assistant client (`src/services/moraService.ts`) -/

namespace MoraService

/-- The `ChatResponse` interface: the reply shape of the assistant backend. -/
structure ChatResponse where
  response : String
  error : Option String
deriving DecidableEq, Repr

/-- Outcome of the single `fetch` performed by `sendMessage`, as observed by
the `try` block: the promise can reject (network error), resolve with a
non-ok status, resolve ok but with a body `response.json()` cannot parse, or
resolve ok with a parsed `ChatResponse`.  The strings carried by `netError`
and `badBody` are the `message` of the error thrown by the runtime. -/
inductive FetchOutcome where
  | netError (msg : String)
  | httpError (status : Nat)
  | badBody (msg : String)
  | success (data : ChatResponse)
deriving DecidableEq, Repr

/-- `true` on the three failure shapes, `false` on a parsed 2xx response. -/
def FetchOutcome.isFailure : FetchOutcome → Bool
  | .success _ => false
  | _ => true

/-- The canned fallback reply built in `sendMessage`'s `catch` block. -/
def fallbackReply : String :=
  "I'm having trouble connecting right now. Please try again later or check your internet connection."

/-- The JSON body `sendMessage` posts to `baseUrl ++ "/chat"`. -/
structure ChatRequestBody where
  input : String
  session_id : String
  user_id : Option String
deriving DecidableEq, Repr

/-- `MoraService.sendMessage`.  The whole body sits in a `try`/`catch` whose
`catch` returns the canned fallback with `error` set to the thrown message, so
the function is total: it never raises to its caller.  On a non-ok status the
`try` block itself throws `Error` with message
`"HTTP error! status: " ++ status`; on success the parsed body is returned
as-is. -/
def sendMessage (message : String) (o : FetchOutcome) : ChatResponse :=
  let _ := message
  match o with
  | .netError m => { response := fallbackReply, error := some m }
  | .httpError status =>
      { response := fallbackReply, error := some ("HTTP error! status: " ++ toString status) }
  | .badBody m => { response := fallbackReply, error := some m }
  | .success data => data

/-- The fixed greeting-elicitation prompt sent by `getWelcomeMessage`. -/
def welcomePrompt : String := "Hello! Can you introduce yourself?"

/-- The hardcoded fallback string defined inside `getWelcomeMessage`'s own
`catch` block. -/
def welcomeFallback : String :=
  "Hey there! I'm Mora, your fabulous piggy assistant! 🐷 How can I help you today?"

/-- `MoraService.getWelcomeMessage`: awaits `sendMessage welcomePrompt` and
returns its `response` field.  Because `sendMessage` is total (its `catch`
swallows every failure), the `catch` branch of `getWelcomeMessage` — which
would return `welcomeFallback` — is unreachable, so the embedding is exactly
the `try` branch. -/
def getWelcomeMessage (o : FetchOutcome) : String :=
  (sendMessage welcomePrompt o).response

/-- The mutable singleton state of `MoraService`. -/
structure State where
  baseUrl : String
  sessionId : String
  userId : Option String
deriving DecidableEq, Repr

/-- `MoraService.generateSessionId`: second-granularity timestamp plus a short
random suffix.  `nowMs` is `Date.now()` in milliseconds; `randomPart` is the
random base-36 suffix. -/
def generateSessionId (nowMs : Nat) (randomPart : String) : String :=
  "session_" ++ toString (nowMs / 1000) ++ "_" ++ randomPart

/-- `MoraService.resetSession`: overwrites `sessionId` with a freshly
generated id. -/
def resetSession (s : State) (nowMs : Nat) (randomPart : String) : State :=
  { s with sessionId := generateSessionId nowMs randomPart }

/-- Holds exactly when a failing outcome's runtime-thrown message is non-empty
(the status-derived message of `httpError` is built by the code itself, so no
side condition is needed there). -/
def FetchOutcome.thrownMsgNonempty : FetchOutcome → Prop
  | .netError m => m ≠ ""
  | .badBody m => m ≠ ""
  | _ => True

end MoraService

/-! ## User-scoped Firestore adapter (`src/services/userService.ts`)

The adapter addresses three collections under a tenant:
`users/{uid}` (profile root documents), `users/{uid}/scans/{scanId}` and
`users/{uid}/chat_sessions/{sessionId}`.  The database is modelled as three
association lists keyed by those paths; `setDoc` is `setEntry`, `getDoc` is
`getEntry`.  `serverTimestamp()` and `new Date()` are supplied as `Nat`
parameters.  Fallible SDK calls are parameterised by an injected outcome
(`Option String`: `some msg` means the call threw with message `msg`, or a
`Bool` read-failure flag where only success/failure matters). -/

namespace UserService

/-- The `OnboardingData` interface.  The string-literal union fields
(`'Yes' | 'No'`, the status enum) are carried as `String`. -/
structure OnboardingData where
  age : Nat
  pastScan : String
  familyHistory : String
  pastConditions : List String
  periodStartAge : Nat
  status : String
  hormonalMeds : String
  smokeAlcohol : String
  chronic : List String
  completedAt : Nat
deriving DecidableEq, Repr

/-- The `UserPreferences` interface (literal-union fields as `String`). -/
structure UserPreferences where
  notifications : Bool
  privacyLevel : String
  language : String
  theme : String
deriving DecidableEq, Repr

/-- `ScanSession.scanType`: `'breast-scan' | 'mammogram' | 'ultrasound'`. -/
inductive ScanType where
  | breastScan
  | mammogram
  | ultrasound
deriving DecidableEq, Repr

/-- `ScanSession.status`: `'pending' | 'processing' | 'completed' | 'failed'`. -/
inductive ScanStatus where
  | pending
  | processing
  | completed
  | failed
deriving DecidableEq, Repr

/-- The `ScanAnalysis` interface (risk-level literal union as `String`). -/
structure ScanAnalysis where
  findings : String
  confidence : Nat
  riskLevel : String
  recommendation : String
  analysisId : String
  timestamp : Nat
deriving DecidableEq, Repr

/-- The `ProcessingStatus` interface returned by the image-analysis backend. -/
structure ProcessingStatus where
  status : ScanStatus
  progress : Nat
  result : Option ScanAnalysis
  error : Option String
deriving DecidableEq, Repr

/-- The `ChatMessage` interface; the free-form `metadata` record is carried as
an optional list of string pairs. -/
structure ChatMessage where
  id : String
  text : String
  isUser : Bool
  timestamp : Nat
  metadata : Option (List (String × String))
deriving DecidableEq, Repr

/-- The live identity supplied by Firebase Auth (`User`): `email`,
`displayName` and `photoURL` are `string | null`. -/
structure FirebaseUser where
  uid : String
  email : Option String
  displayName : Option String
  photoURL : Option String
deriving DecidableEq, Repr

/-- The `UserProfile` view returned by `getUserProfile`. -/
structure UserProfile where
  uid : String
  email : String
  displayName : Option String
  photoURL : Option String
  createdAt : Nat
  lastLoginAt : Nat
  onboarding : Option OnboardingData
  preferences : Option UserPreferences
deriving DecidableEq, Repr

/-- The document stored at `users/{uid}`.  Two writers create it with
different shapes — `getUserProfile` (full profile) and `ensureUserDocument`
(minimal stub) — so every field except `uid` is optional. -/
structure StoredUserDoc where
  uid : String
  email : Option String
  displayName : Option String
  photoURL : Option String
  createdAt : Option Nat
  lastLoginAt : Option Nat
  updatedAt : Option Nat
  onboarding : Option OnboardingData
  preferences : Option UserPreferences
deriving DecidableEq, Repr

/-- The document stored at `users/{uid}/scans/{scanId}`.  Only
`createScanSession` creates these, with the full field set below, so the
reader-side `|| default` fallbacks of `getScanSession(s)` are identities. -/
structure StoredScanDoc where
  userId : String
  scanType : ScanType
  scanTime : Nat
  status : ScanStatus
  images : List String
  analysisResults : Option ScanAnalysis
  processingStatus : Option ProcessingStatus
  backendUsed : Option String
  gcsUrls : Option (List String)
  metadata : List (String × String)
  lastUpdatedAt : Option Nat
  createdAt : Nat
deriving DecidableEq, Repr

/-- The document stored at `users/{uid}/chat_sessions/{sessionId}`; only
`saveChatSession` writes these. -/
structure StoredChatDoc where
  userId : String
  sessionId : String
  messages : List ChatMessage
  lastActivityAt : Nat
  createdAt : Nat
deriving DecidableEq, Repr

/-- The whole user-scoped document store: `users/{uid}`,
`users/{uid}/scans/{scanId}`, `users/{uid}/chat_sessions/{sessionId}`. -/
structure FirestoreDB where
  users : List (String × StoredUserDoc)
  scans : List ((String × String) × StoredScanDoc)
  chats : List ((String × String) × StoredChatDoc)
deriving DecidableEq, Repr

/-- `UserService.getUserProfile` (the spec's `getOrCreateProfile`): reads
`users/{uid}`; if present, merges stored fields with the live identity
(`user.displayName || data.displayName` etc., `createdAt?.toDate() || new
Date()`); if absent, synthesizes a new profile with both timestamps set to
call time and writes it with `setDoc`.  `now` is the call-time `new Date()`. -/
def getUserProfile (user : FirebaseUser) (db : FirestoreDB) (now : Nat) :
    UserProfile × FirestoreDB :=
  match getEntry user.uid db.users with
  | some data =>
      ({ uid := user.uid
         email := jsOrD user.email ""
         displayName := jsOr user.displayName data.displayName
         photoURL := jsOr user.photoURL data.photoURL
         createdAt := data.createdAt.getD now
         lastLoginAt := now
         onboarding := data.onboarding
         preferences := data.preferences }, db)
  | none =>
      let newProfile : UserProfile :=
        { uid := user.uid
          email := jsOrD user.email ""
          displayName := some (jsOrD user.displayName "")
          photoURL := some (jsOrD user.photoURL "")
          createdAt := now
          lastLoginAt := now
          onboarding := none
          preferences := none }
      let stored : StoredUserDoc :=
        { uid := user.uid
          email := some newProfile.email
          displayName := newProfile.displayName
          photoURL := newProfile.photoURL
          createdAt := some now
          lastLoginAt := some now
          updatedAt := none
          onboarding := none
          preferences := none }
      (newProfile, { db with users := setEntry user.uid stored db.users })

/-- The slice of `Partial<ScanSession>` that callers pass to
`createScanSession`; the function itself only reads `scanType`, `images` and
`metadata` and silently drops the rest. -/
structure ScanData where
  scanType : Option ScanType
  images : Option (List String)
  metadata : Option (List (String × String))
  analysisResults : Option ScanAnalysis
  backendUsed : Option String
  gcsUrls : Option (List String)
deriving DecidableEq, Repr

/-- `UserService.createScanSession`: allocates a fresh document id (`newId`,
the id Firestore's `doc(scansRef)` generates), writes a `pending` document
seeded from `scanData` with `|| default` semantics (enum and array values are
truthy, so `getD` is exact), and returns the id. -/
def createScanSession (db : FirestoreDB) (userId : String) (scanData : ScanData)
    (newId : String) (nowServer : Nat) : String × FirestoreDB :=
  let docData : StoredScanDoc :=
    { userId := userId
      scanType := scanData.scanType.getD .breastScan
      scanTime := nowServer
      status := .pending
      images := scanData.images.getD []
      analysisResults := none
      processingStatus := none
      backendUsed := none
      gcsUrls := none
      metadata := scanData.metadata.getD []
      lastUpdatedAt := none
      createdAt := nowServer }
  (newId, { db with scans := setEntry (userId, newId) docData db.scans })

/-- The fields `updateScanSession`'s callers in this layer merge into a scan
document (`completeScan` passes `status` and `scanTime`). -/
structure ScanUpdate where
  status : Option ScanStatus
  scanTime : Option Nat
deriving DecidableEq, Repr

/-- `UserService.updateScanSession`: `updateDoc` merges the given fields plus
a fresh `lastUpdatedAt` into the existing document, and throws (caught and
rethrown as `Failed to update scan session`) when the document is absent. -/
def updateScanSession (db : FirestoreDB) (userId scanId : String) (u : ScanUpdate)
    (nowServer : Nat) : Except String Unit × FirestoreDB :=
  match getEntry (userId, scanId) db.scans with
  | none => (.error "Failed to update scan session", db)
  | some d =>
      let d' : StoredScanDoc :=
        { d with
          status := u.status.getD d.status
          scanTime := u.scanTime.getD d.scanTime
          lastUpdatedAt := some nowServer }
      (.ok (), { db with scans := setEntry (userId, scanId) d' db.scans })

/-- The `ScanSession` view assembled by `getScanSession(s)` from a stored
document (the interface of the same name in the source). -/
structure ScanSessionView where
  id : String
  userId : String
  scanType : ScanType
  scanTime : Nat
  status : ScanStatus
  images : List String
  analysisResults : Option ScanAnalysis
  processingStatus : Option ProcessingStatus
  backendUsed : Option String
  gcsUrls : Option (List String)
  metadata : List (String × String)
  createdAt : Nat
deriving DecidableEq, Repr

/-- Field-by-field view of a stored scan document, as built inside
`getScanSession(s)`; the `|| default` reader fallbacks are identities because
every stored scan document carries the full schema. -/
def scanView (scanId : String) (data : StoredScanDoc) : ScanSessionView :=
  { id := scanId
    userId := data.userId
    scanType := data.scanType
    scanTime := data.scanTime
    status := data.status
    images := data.images
    analysisResults := data.analysisResults
    processingStatus := data.processingStatus
    backendUsed := data.backendUsed
    gcsUrls := data.gcsUrls
    metadata := data.metadata
    createdAt := data.createdAt }

/-- `UserService.getScanSession`: reads one scan document, `none` when absent
(and, per its `catch`, also `none` instead of an error on a failed read). -/
def getScanSession (db : FirestoreDB) (userId scanId : String) :
    Option ScanSessionView :=
  (getEntry (userId, scanId) db.scans).map (scanView scanId)

/-- `UserService.getScanSessions`: all of a tenant's scan documents ordered by
`scanTime` descending; its `catch` converts any read failure (injected here as
`readFails`) into the empty list. -/
def getScanSessions (db : FirestoreDB) (userId : String) (readFails : Bool) :
    List ScanSessionView :=
  if readFails then []
  else
    (sortByKeyDesc (fun e => e.2.scanTime)
        (db.scans.filter (fun e => e.1.1 = userId))).map
      (fun e => scanView e.1.2 e.2)

/-- The `ChatSession` view assembled by `getChatSessions`. -/
structure ChatSessionView where
  id : String
  userId : String
  sessionId : String
  messages : List ChatMessage
  createdAt : Nat
  lastActivityAt : Nat
deriving DecidableEq, Repr

/-- `UserService.getChatSessions`: all of a tenant's chat documents ordered by
`lastActivityAt` descending; empty list instead of an error on a failed read. -/
def getChatSessions (db : FirestoreDB) (userId : String) (readFails : Bool) :
    List ChatSessionView :=
  if readFails then []
  else
    (sortByKeyDesc (fun e => e.2.lastActivityAt)
        (db.chats.filter (fun e => e.1.1 = userId))).map
      (fun e =>
        { id := e.1.2
          userId := e.2.userId
          sessionId := e.2.sessionId
          messages := e.2.messages
          createdAt := e.2.createdAt
          lastActivityAt := e.2.lastActivityAt })

/-- The minimal stub `ensureUserDocument` writes when `users/{uid}` is
absent. -/
def stubUserDoc (userId : String) (nowServer : Nat) : StoredUserDoc :=
  { uid := userId
    email := none
    displayName := none
    photoURL := none
    createdAt := some nowServer
    lastLoginAt := none
    updatedAt := some nowServer
    onboarding := none
    preferences := none }

/-- `UserService.ensureUserDocument`: reads `users/{uid}` and creates the
minimal stub when absent.  `getFail`/`setFail` inject a thrown message for the
underlying `getDoc`/`setDoc`; the `catch` rethrows it prefixed with
`Failed to ensure user document: `.  The database is returned unchanged on
every failing path. -/
def ensureUserDocument (db : FirestoreDB) (userId : String) (nowServer : Nat)
    (getFail setFail : Option String) : Except String Unit × FirestoreDB :=
  match getFail with
  | some m => (.error ("Failed to ensure user document: " ++ m), db)
  | none =>
      match getEntry userId db.users with
      | some _ => (.ok (), db)
      | none =>
          match setFail with
          | some m => (.error ("Failed to ensure user document: " ++ m), db)
          | none =>
              (.ok (),
               { db with users := setEntry userId (stubUserDoc userId nowServer) db.users })

/-- The chat document `saveChatSession` writes.  The source's per-message
`timestamp` normalization (`instanceof Date ? t : new Date(t)`) is the
identity on the `Nat`-dated messages of this embedding. -/
def chatDocOf (userId sessionId : String) (messages : List ChatMessage)
    (nowServer : Nat) : StoredChatDoc :=
  { userId := userId
    sessionId := sessionId
    messages := messages
    lastActivityAt := nowServer
    createdAt := nowServer }

/-- `UserService.saveChatSession`: first awaits `ensureUserDocument`, then
`setDoc`s the chat document wholesale.  If either step throws, the `catch`
rethrows `Failed to save chat session`; in particular when the ensure step
fails the chat write is never attempted. -/
def saveChatSession (db : FirestoreDB) (userId sessionId : String)
    (messages : List ChatMessage) (nowServer : Nat)
    (ensureGetFail ensureSetFail chatSetFail : Option String) :
    Except String Unit × FirestoreDB :=
  match ensureUserDocument db userId nowServer ensureGetFail ensureSetFail with
  | (.error _, db') => (.error "Failed to save chat session", db')
  | (.ok _, db') =>
      match chatSetFail with
      | some _ => (.error "Failed to save chat session", db')
      | none =>
          (.ok (),
           { db' with
             chats := setEntry (userId, sessionId)
               (chatDocOf userId sessionId messages nowServer) db'.chats })

/-- The record returned by `getUserStats`. -/
structure UserStats where
  totalScans : Nat
  completedScans : Nat
  totalChats : Nat
  lastScanDate : Option Nat
  lastChatDate : Option Nat
deriving DecidableEq, Repr

/-- `UserService.getUserStats`: reduces `getScanSessions`/`getChatSessions`
locally (count, filter by `completed`, head of each ordered list).  Both
sub-reads absorb their own failures into `[]`, and the remaining computation
is pure, so the function is total — its own `catch` (which would return the
all-zero record) is unreachable. -/
def getUserStats (db : FirestoreDB) (uid : String)
    (scanReadFails chatReadFails : Bool) : UserStats :=
  let scans := getScanSessions db uid scanReadFails
  let chats := getChatSessions db uid chatReadFails
  let completedScans := scans.filter (fun s => s.status = ScanStatus.completed)
  { totalScans := scans.length
    completedScans := completedScans.length
    totalChats := chats.length
    lastScanDate := scans.head?.map (fun s => s.scanTime)
    lastChatDate := chats.head?.map (fun c => c.lastActivityAt) }

/-- The empty document store. -/
def emptyDB : FirestoreDB := { users := [], scans := [], chats := [] }

/-- A store holding a single chat document (and nothing else) for tenant
`"u"` — concrete test data for the stats claims. -/
def chatOnlyDB : FirestoreDB :=
  { users := []
    scans := []
    chats := [(("u", "s1"), chatDocOf "u" "s1" [] 0)] }

end UserService

/-! ## Chat screen controller (`src/components/AskMora.tsx`) -/

namespace AskMora

/-- The screen-local `Message` interface (no `metadata` field). -/
structure Message where
  id : String
  text : String
  isUser : Bool
  timestamp : Nat
deriving DecidableEq, Repr

/-- The structural coercion applied when the screen's `Message[]` is passed to
`UserService.saveChatSession` (TS structural typing; `metadata` stays
absent). -/
def Message.toChatMessage (m : Message) : UserService.ChatMessage :=
  { id := m.id
    text := m.text
    isUser := m.isUser
    timestamp := m.timestamp
    metadata := none }

/-- The component state variables `sendMessage` reads or writes. -/
structure ScreenState where
  message : String
  messages : List Message
  isLoading : Bool
  isTyping : Bool
deriving DecidableEq, Repr

/-- The chat screen's `sendMessage` handler.  The guard rejects
empty/whitespace-only input (`message.trim()` is falsy) and sends while busy
(`isLoading`/`isTyping`).  On an accepted send it appends the user message,
awaits the fail-soft `MoraService.sendMessage` (which never throws, so the
handler's own `catch` — which would append a hardcoded error bubble — is
unreachable), appends the reply bubble, then best-effort persists exactly the
two new messages: the saved-or-failed result of `saveChatSession` is
discarded, only its store effect is kept.  `nowMs` plays `Date.now()` and the
message timestamps' `new Date()`. -/
def sendMessage (st : ScreenState) (user : Option String) (sessionId : String)
    (outcome : MoraService.FetchOutcome) (nowMs : Nat)
    (db : UserService.FirestoreDB)
    (ensureGetFail ensureSetFail chatSetFail : Option String) :
    ScreenState × UserService.FirestoreDB :=
  if jsTrim st.message ≠ "" ∧ st.isLoading = false ∧ st.isTyping = false then
    let userMessage : Message :=
      { id := toString nowMs
        text := jsTrim st.message
        isUser := true
        timestamp := nowMs }
    let response := MoraService.sendMessage (jsTrim st.message) outcome
    let botMessage : Message :=
      { id := toString (nowMs + 1)
        text := response.response
        isUser := false
        timestamp := nowMs }
    let db' :=
      match user with
      | some uid =>
          (UserService.saveChatSession db uid sessionId
            ([userMessage, botMessage].map Message.toChatMessage) nowMs
            ensureGetFail ensureSetFail chatSetFail).2
      | none => db
    ({ message := ""
       messages := st.messages ++ [userMessage, botMessage]
       isLoading := st.isLoading
       isTyping := false }, db')
  else (st, db)

/-- Number of user messages in the local list. -/
def countUser (msgs : List Message) : Nat :=
  (msgs.filter (fun m => m.isUser)).length

/-- Number of reply (non-user) messages in the local list. -/
def countReply (msgs : List Message) : Nat :=
  (msgs.filter (fun m => !m.isUser)).length

end AskMora

/-! ## Scan capture orchestrator (the breast-scan camera component)

`startScan` arms a repeating capture interval (`tick` is one firing of its
callback), bounded at `maxCaptures` frames; the first firing after the bound
runs `completeScan`, which persists a scan via `createScanSession` and
immediately marks it completed via `updateScanSession`.  `stopScan` cancels
the interval and resets every scan-state variable.  The state also carries the
document store and a counter of `createScanSession` calls, so "nothing was
persisted" is directly observable. -/

namespace BreastScan

/-- The capture bound: `maxCaptures` in `startScan`. -/
def maxCaptures : Nat := 5

/-- Component state variables of the capture flow, the interval handle
(`intervalActive` models a live `intervalRef.current`), `startScan`'s local
`captureCount`, plus the store and a `createScanSession` call counter. -/
structure ScanState where
  isScanning : Bool
  scanCompleted : Bool
  capturedImages : List String
  processingStatus : Option UserService.ProcessingStatus
  scanProgress : Nat
  cameraReady : Bool
  isGridActive : Bool
  intervalActive : Bool
  captureCount : Nat
  db : UserService.FirestoreDB
  createCalls : Nat
deriving DecidableEq, Repr

/-- The canned "low risk, continue screening" analysis `completeScan` falls
back on when no analysis response arrived in time.  The source literal has no
`analysisId`/`timestamp` fields; their absence is modelled by the falsy
defaults `""` and `0`, which the `||` right below replaces. -/
def defaultScanAnalysis : UserService.ScanAnalysis :=
  { findings := "Analysis completed - comprehensive breast scan performed successfully"
    confidence := 85
    riskLevel := "Low"
    recommendation := "Continue regular screening schedule. Consult healthcare provider if you have concerns."
    analysisId := ""
    timestamp := 0 }

/-- `completeScan` (success path of its persistence `try`): marks the scan
completed, synthesizes the analysis (`processingStatus?.result ||` canned
default, with `||`-generated `analysisId`/`timestamp`), creates the scan
session, then marks it `completed`.  Bails out with no store effect when a
completion already happened or no user is signed in. -/
def completeScan (s : ScanState) (user : Option String) (newId : String)
    (nowMs : Nat) : ScanState :=
  if s.scanCompleted then s
  else
    let s₁ := { s with scanCompleted := true, scanProgress := 100, intervalActive := false }
    match user with
    | none => s₁
    | some uid =>
        let baseResult :=
          (s.processingStatus.bind (fun ps => ps.result)).getD defaultScanAnalysis
        let analysisResults : UserService.ScanAnalysis :=
          { baseResult with
            analysisId := jsOrD (some baseResult.analysisId)
              ("analysis_" ++ toString nowMs)
            timestamp := if baseResult.timestamp = 0 then nowMs else baseResult.timestamp }
        let scanData : UserService.ScanData :=
          { scanType := some UserService.ScanType.breastScan
            images := some s.capturedImages
            metadata := some
              [("captureCount", toString s.capturedImages.length),
               ("processingTime", toString nowMs)]
            analysisResults := some analysisResults
            backendUsed :=
              some (if s.processingStatus.isSome then "python" else "local")
            gcsUrls := some [] }
        let created := UserService.createScanSession s₁.db uid scanData newId nowMs
        let updated :=
          UserService.updateScanSession created.2 uid created.1
            { status := some UserService.ScanStatus.completed
              scanTime := some nowMs } nowMs
        { s₁ with
          db := updated.2
          createCalls := s₁.createCalls + 1
          isScanning := false }

/-- Environment of one firing of the capture interval: the frame the camera
delivered (`none` when `takePictureAsync` produced no base64 payload), the
processing status the analysis dispatch stores (remote result, or the local
fallback), and the fresh id / server time `completeScan` would consume. -/
structure TickInput where
  photo : Option String
  analysis : UserService.ProcessingStatus
  newId : String
  nowMs : Nat
deriving DecidableEq, Repr

/-- One firing of the repeating capture callback armed by `startScan`: when
the interval was cleared, nothing fires; when a completion happened or the
frame bound is reached, the interval is cleared and `completeScan` runs (if
not already run); otherwise one frame is captured, appended, counted, and its
analysis dispatched (the orchestrator keeping the most recently observed
status). -/
def tick (s : ScanState) (user : Option String) (i : TickInput) : ScanState :=
  if s.intervalActive = false then s
  else if s.scanCompleted = true ∨ maxCaptures ≤ s.captureCount then
    let s₁ := { s with intervalActive := false }
    if s.scanCompleted = true then s₁ else completeScan s₁ user i.newId i.nowMs
  else
    match i.photo with
    | none => s
    | some b64 =>
        { s with
          capturedImages := s.capturedImages ++ [b64]
          captureCount := s.captureCount + 1
          processingStatus := some i.analysis }

/-- `startScan` (success path: permission granted, camera initialized): resets
the per-attempt state and arms the capture interval. -/
def startScan (s : ScanState) : ScanState :=
  { s with
    cameraReady := true
    isScanning := true
    isGridActive := true
    capturedImages := []
    processingStatus := none
    scanCompleted := false
    scanProgress := 0
    captureCount := 0
    intervalActive := true }

/-- `stopScan`: clears both intervals and resets every scan-state variable;
it never touches the store. -/
def stopScan (s : ScanState) : ScanState :=
  { s with
    intervalActive := false
    isScanning := false
    scanCompleted := false
    processingStatus := none
    scanProgress := 0
    cameraReady := false
    isGridActive := false }

/-- The IDLE configuration of the orchestrator's state machine: not scanning,
no armed interval, no completion flag, no retained analysis, zeroed progress,
camera and grid off. -/
def isIdle (s : ScanState) : Prop :=
  s.isScanning = false ∧ s.intervalActive = false ∧ s.scanCompleted = false ∧
    s.processingStatus = none ∧ s.scanProgress = 0 ∧ s.cameraReady = false ∧
    s.isGridActive = false

instance (s : ScanState) : Decidable (isIdle s) := by
  unfold isIdle
  infer_instance

/-- Fold a run of interval firings over the state. -/
def runTicks (s : ScanState) (user : Option String) (inputs : List TickInput) :
    ScanState :=
  inputs.foldl (fun st i => tick st user i) s

end BreastScan

end Femora

namespace Femora

/-- C1: on every failing HTTP call (network error, non-2xx status, malformed
body), `sendMessage` does not raise — it is a total function — and returns the
fixed canned fallback string as the reply together with a non-empty diagnostic
in the `error` field.  The only hypothesis is that the message of an error
thrown by the JS runtime itself (promise rejection / JSON parse error) is
non-empty. -/
theorem sendMessage_fail_soft (message : String) (o : MoraService.FetchOutcome)
    (hfail : o.isFailure = true) (hmsg : o.thrownMsgNonempty) :
    (MoraService.sendMessage message o).response = MoraService.fallbackReply ∧
      ∃ m, (MoraService.sendMessage message o).error = some m ∧ m ≠ "" := by
  cases o with
  | netError m =>
      exact ⟨rfl, m, rfl, hmsg⟩
  | httpError status =>
      refine ⟨rfl, "HTTP error! status: " ++ toString status, rfl, ?_⟩
      intro h
      have hlen := congrArg String.length h
      rw [String.length_append] at hlen
      have h20 : "HTTP error! status: ".length = 20 := by decide
      have h0 : ("" : String).length = 0 := by decide
      omega
  | badBody m =>
      exact ⟨rfl, m, rfl, hmsg⟩
  | success data =>
      simp [MoraService.FetchOutcome.isFailure] at hfail

/-- Witness for C1 at a concrete unreachable-host outcome. -/
theorem sendMessage_fail_soft_witness :
    (MoraService.sendMessage "hello"
        (.netError "Network request failed")).response = MoraService.fallbackReply ∧
      ∃ m, (MoraService.sendMessage "hello"
        (.netError "Network request failed")).error = some m ∧ m ≠ "" :=
  sendMessage_fail_soft "hello" (.netError "Network request failed")
    (by decide) (by simp [MoraService.FetchOutcome.thrownMsgNonempty])

/-- The two canned strings are distinct: `sendMessage`'s apology is not
`getWelcomeMessage`'s piggy fallback. -/
theorem fallbackReply_ne_welcomeFallback :
    MoraService.fallbackReply ≠ MoraService.welcomeFallback := by
  decide

/-- C8 counterexample: when the HTTP call fails outright (network error),
`getWelcomeMessage` does NOT return its own hardcoded fallback string; it
returns `sendMessage`'s canned apology, because `sendMessage` never throws and
so `getWelcomeMessage`'s `catch` branch is dead code. -/
theorem getWelcomeMessage_own_fallback_false :
    MoraService.getWelcomeMessage (.netError "Network request failed") ≠
        MoraService.welcomeFallback ∧
      MoraService.getWelcomeMessage (.netError "Network request failed") =
        MoraService.fallbackReply := by
  exact ⟨fallbackReply_ne_welcomeFallback, rfl⟩

/-- C8 amended: `getWelcomeMessage` returns exactly the reply text of
`sendMessage` on the fixed greeting prompt — the parsed reply on success, and
`sendMessage`'s canned apology (never `getWelcomeMessage`'s own hardcoded
fallback) on any failure of the HTTP call. -/
theorem getWelcomeMessage_reply_text (o : MoraService.FetchOutcome) :
    (∀ d, o = .success d → MoraService.getWelcomeMessage o = d.response) ∧
      (o.isFailure = true →
        MoraService.getWelcomeMessage o = MoraService.fallbackReply ∧
          MoraService.getWelcomeMessage o ≠ MoraService.welcomeFallback) := by
  constructor
  · rintro d rfl
    rfl
  · intro hfail
    cases o with
    | netError m => exact ⟨rfl, fallbackReply_ne_welcomeFallback⟩
    | httpError status => exact ⟨rfl, fallbackReply_ne_welcomeFallback⟩
    | badBody m => exact ⟨rfl, fallbackReply_ne_welcomeFallback⟩
    | success data => simp [MoraService.FetchOutcome.isFailure] at hfail

/-- Witness for the amended C8 at a concrete failing outcome. -/
theorem getWelcomeMessage_reply_text_witness :
    MoraService.getWelcomeMessage (.httpError 500) = MoraService.fallbackReply ∧
      MoraService.getWelcomeMessage (.httpError 500) ≠ MoraService.welcomeFallback :=
  (getWelcomeMessage_reply_text (.httpError 500)).2 (by decide)

/-- C10: `resetSession` replaces only the session id field with a freshly
generated id; the base URL and the user id are unchanged, whatever the prior
state. -/
theorem resetSession_frame (s : MoraService.State) (nowMs : Nat) (randomPart : String) :
    (MoraService.resetSession s nowMs randomPart).baseUrl = s.baseUrl ∧
      (MoraService.resetSession s nowMs randomPart).userId = s.userId ∧
      (MoraService.resetSession s nowMs randomPart).sessionId =
        MoraService.generateSessionId nowMs randomPart :=
  ⟨rfl, rfl, rfl⟩

/-! ### Association-list and sort helper lemmas -/

theorem getEntry_setEntry_self {α β : Type} [DecidableEq α] (k : α) (v : β)
    (l : List (α × β)) : getEntry k (setEntry k v l) = some v := by
  induction l with
  | nil => simp [setEntry, getEntry]
  | cons hd tl ih =>
    obtain ⟨k', v'⟩ := hd
    by_cases h : k = k' <;> simp [setEntry, getEntry, h, ih]

theorem mem_setEntry_self {α β : Type} [DecidableEq α] (k : α) (v : β)
    (l : List (α × β)) : (k, v) ∈ setEntry k v l := by
  induction l with
  | nil => simp [setEntry]
  | cons hd tl ih =>
    obtain ⟨k', v'⟩ := hd
    by_cases h : k = k' <;> simp [setEntry, h, ih]

theorem mem_setEntry_elim {α β : Type} [DecidableEq α] {k k' : α} {v v' : β}
    {l : List (α × β)} (h : (k', v') ∈ setEntry k v l) :
    (k' = k ∧ v' = v) ∨ (k', v') ∈ l := by
  induction l with
  | nil =>
    simp [setEntry] at h
    exact Or.inl ⟨h.1, h.2⟩
  | cons hd tl ih =>
    obtain ⟨k₀, v₀⟩ := hd
    by_cases hk : k = k₀
    · subst hk
      simp [setEntry] at h
      rcases h with ⟨rfl, rfl⟩ | hmem
      · exact Or.inl ⟨rfl, rfl⟩
      · exact Or.inr (List.mem_cons_of_mem _ hmem)
    · simp [setEntry, hk] at h
      rcases h with ⟨rfl, rfl⟩ | hmem
      · exact Or.inr (List.mem_cons_self _ _)
      · rcases ih hmem with h' | h'
        · exact Or.inl h'
        · exact Or.inr (List.mem_cons_of_mem _ h')

theorem fst_mem_setEntry_elim {α β : Type} [DecidableEq α] {k a : α} {v : β}
    {l : List (α × β)} (h : a ∈ (setEntry k v l).map Prod.fst) :
    a = k ∨ a ∈ l.map Prod.fst := by
  rcases List.mem_map.mp h with ⟨⟨a', b⟩, hmem, rfl⟩
  rcases mem_setEntry_elim hmem with ⟨rfl, _⟩ | h'
  · exact Or.inl rfl
  · exact Or.inr (List.mem_map.mpr ⟨(a', b), h', rfl⟩)

theorem nodup_keys_setEntry {α β : Type} [DecidableEq α] (k : α) (v : β)
    {l : List (α × β)} (h : (l.map Prod.fst).Nodup) :
    ((setEntry k v l).map Prod.fst).Nodup := by
  induction l with
  | nil => simp [setEntry]
  | cons hd tl ih =>
    obtain ⟨k', v'⟩ := hd
    simp only [List.map_cons, List.nodup_cons] at h
    by_cases hk : k = k'
    · subst hk
      simpa [setEntry, List.nodup_cons] using h
    · simp only [setEntry]
      rw [if_neg hk]
      simp only [List.map_cons, List.nodup_cons]
      refine ⟨?_, ih h.2⟩
      intro hmem
      rcases fst_mem_setEntry_elim hmem with h' | h'
      · exact hk h'.symm
      · exact h.1 h'

theorem eq_of_mem_of_nodup_keys {α β : Type} [DecidableEq α] {k : α} {a b : β}
    {l : List (α × β)} (h : (l.map Prod.fst).Nodup)
    (ha : (k, a) ∈ l) (hb : (k, b) ∈ l) : a = b := by
  induction l with
  | nil => simp at ha
  | cons hd tl ih =>
    obtain ⟨k₀, v₀⟩ := hd
    simp only [List.map_cons, List.nodup_cons] at h
    rcases List.mem_cons.mp ha with ha' | ha' <;>
      rcases List.mem_cons.mp hb with hb' | hb'
    · rw [Prod.mk.injEq] at ha' hb'
      exact ha'.2.trans hb'.2.symm
    · exfalso
      rw [Prod.mk.injEq] at ha'
      exact h.1 (ha'.1 ▸ List.mem_map.mpr ⟨(k, b), hb', rfl⟩)
    · exfalso
      rw [Prod.mk.injEq] at hb'
      exact h.1 (hb'.1 ▸ List.mem_map.mpr ⟨(k, a), ha', rfl⟩)
    · exact ih h.2 ha' hb'

theorem mem_insertByKeyDesc {α : Type} (key : α → Nat) (x a : α) (l : List α) :
    a ∈ insertByKeyDesc key x l ↔ a = x ∨ a ∈ l := by
  induction l with
  | nil => simp [insertByKeyDesc]
  | cons y ys ih =>
    by_cases h : key y ≤ key x
    · simp [insertByKeyDesc, h]
    · simp only [insertByKeyDesc, if_neg h, List.mem_cons, ih]
      tauto

theorem mem_sortByKeyDesc {α : Type} (key : α → Nat) (a : α) (l : List α) :
    a ∈ sortByKeyDesc key l ↔ a ∈ l := by
  induction l with
  | nil => simp [sortByKeyDesc]
  | cons x xs ih =>
    simp [sortByKeyDesc, mem_insertByKeyDesc, ih]

/-! ### Claims about the Firestore adapter -/

/-- C2: `getUserProfile` (the spec's `getOrCreateProfile`) is idempotent —
calling it twice in a row with the same live identity and no intervening
update yields the same tenant id, creation timestamp and email both times.
The hypothesis says the stored root document, when one exists, carries a
creation timestamp; every write path of the adapter (full profile creation
and the minimal stub) stamps one, so this holds of all reachable stores. -/
theorem getOrCreateProfile_idempotent (user : UserService.FirebaseUser)
    (db : UserService.FirestoreDB) (now₁ now₂ : Nat)
    (hc : ∀ d, getEntry user.uid db.users = some d → d.createdAt.isSome = true) :
    (UserService.getUserProfile user db now₁).1.uid =
        (UserService.getUserProfile user
          (UserService.getUserProfile user db now₁).2 now₂).1.uid ∧
      (UserService.getUserProfile user db now₁).1.createdAt =
        (UserService.getUserProfile user
          (UserService.getUserProfile user db now₁).2 now₂).1.createdAt ∧
      (UserService.getUserProfile user db now₁).1.email =
        (UserService.getUserProfile user
          (UserService.getUserProfile user db now₁).2 now₂).1.email := by
  cases h : getEntry user.uid db.users with
  | some d =>
      obtain ⟨c, hc'⟩ := Option.isSome_iff_exists.mp (hc d h)
      simp [UserService.getUserProfile, h, hc']
  | none =>
      simp [UserService.getUserProfile, h, getEntry_setEntry_self]

/-- Witness for C2: two back-to-back profile fetches for a fresh tenant. -/
theorem getOrCreateProfile_idempotent_witness :
    (UserService.getUserProfile ⟨"u1", some "a@b.c", none, none⟩
          UserService.emptyDB 5).1.uid =
        (UserService.getUserProfile ⟨"u1", some "a@b.c", none, none⟩
          (UserService.getUserProfile ⟨"u1", some "a@b.c", none, none⟩
            UserService.emptyDB 5).2 9).1.uid ∧
      (UserService.getUserProfile ⟨"u1", some "a@b.c", none, none⟩
          UserService.emptyDB 5).1.createdAt =
        (UserService.getUserProfile ⟨"u1", some "a@b.c", none, none⟩
          (UserService.getUserProfile ⟨"u1", some "a@b.c", none, none⟩
            UserService.emptyDB 5).2 9).1.createdAt ∧
      (UserService.getUserProfile ⟨"u1", some "a@b.c", none, none⟩
          UserService.emptyDB 5).1.email =
        (UserService.getUserProfile ⟨"u1", some "a@b.c", none, none⟩
          (UserService.getUserProfile ⟨"u1", some "a@b.c", none, none⟩
            UserService.emptyDB 5).2 9).1.email :=
  getOrCreateProfile_idempotent ⟨"u1", some "a@b.c", none, none⟩
    UserService.emptyDB 5 9
    (by intro d hd; simp [getEntry, UserService.emptyDB] at hd)

/-- C5: `createScanSession` writes a `pending` document whose scan type is the
supplied one (or `breast-scan` when omitted) and whose image list is the
supplied one (or empty when omitted), and returns the allocated id; a
subsequent `getScanSession` with that id returns that document. -/
theorem createScanSession_pending_roundtrip (db : UserService.FirestoreDB)
    (userId : String) (scanData : UserService.ScanData) (newId : String)
    (nowServer : Nat) :
    (UserService.createScanSession db userId scanData newId nowServer).1 = newId ∧
      ∃ v, UserService.getScanSession
            (UserService.createScanSession db userId scanData newId nowServer).2
            userId newId = some v ∧
          v.status = UserService.ScanStatus.pending ∧
          v.scanType = scanData.scanType.getD UserService.ScanType.breastScan ∧
          v.images = scanData.images.getD [] ∧
          v.id = newId := by
  refine ⟨rfl, ?_⟩
  simp [UserService.createScanSession, UserService.getScanSession,
    getEntry_setEntry_self, UserService.scanView]

/-- C9 counterexample: a failing scan read does NOT force an all-zero stats
record — with one stored chat and a failing scan read, `getUserStats` reports
`totalChats = 1`, so the "any underlying read fails implies all three counts
are zero" reading of the claim is false. -/
theorem getUserStats_allzero_counterexample :
    (UserService.getUserStats UserService.chatOnlyDB "u" true false).totalChats = 1 ∧
      (UserService.getUserStats UserService.chatOnlyDB "u" true false).totalChats ≠ 0 := by
  decide

/-- C9 amended: `getUserStats` is total (it never throws — both sub-reads
absorb their own failures), and each of the three counts is zero whenever its
collection is empty for the tenant or its read fails; in particular a tenant
with no scans and no chats, and equally a store where both reads fail, yields
`totalScans = 0`, `completedScans = 0`, `totalChats = 0`.  A failure of one
read, however, zeroes only that read's counts. -/
theorem getUserStats_zero_on_empty_or_failed (db : UserService.FirestoreDB)
    (uid : String) (sf cf : Bool)
    (hscan : sf = true ∨ db.scans.filter (fun e => e.1.1 = uid) = [])
    (hchat : cf = true ∨ db.chats.filter (fun e => e.1.1 = uid) = []) :
    (UserService.getUserStats db uid sf cf).totalScans = 0 ∧
      (UserService.getUserStats db uid sf cf).completedScans = 0 ∧
      (UserService.getUserStats db uid sf cf).totalChats = 0 := by
  have hs : UserService.getScanSessions db uid sf = [] := by
    rcases hscan with h | h
    · simp [UserService.getScanSessions, h]
    · cases sf <;> simp [UserService.getScanSessions, h, sortByKeyDesc]
  have hch : UserService.getChatSessions db uid cf = [] := by
    rcases hchat with h | h
    · simp [UserService.getChatSessions, h]
    · cases cf <;> simp [UserService.getChatSessions, h, sortByKeyDesc]
  simp [UserService.getUserStats, hs, hch]

/-- The chats collection after a fully successful `saveChatSession` is the
upsert of the chat document, whatever the ensure step did to the users
collection. -/
theorem saveChatSession_ok_chats (db : UserService.FirestoreDB)
    (t s : String) (msgs : List UserService.ChatMessage) (now : Nat) :
    ((UserService.saveChatSession db t s msgs now none none none).2).chats =
      setEntry (t, s) (UserService.chatDocOf t s msgs now) db.chats := by
  cases h : getEntry t db.users <;>
    simp [UserService.saveChatSession, UserService.ensureUserDocument, h]

/-- C3: `saveChatSession t s msgs` followed by a read of chat session `s` for
tenant `t` (through `getChatSessions`) returns a message list equal in content
and order to `msgs`: such a session is in the returned list, and every
returned session with id `s` carries exactly `msgs`.  The hypothesis is that
the store has no duplicate chat document paths, which Firestore guarantees. -/
theorem saveChatSession_roundtrip (db : UserService.FirestoreDB)
    (t s : String) (msgs : List UserService.ChatMessage) (now : Nat)
    (hnd : (db.chats.map Prod.fst).Nodup) :
    (∃ c ∈ UserService.getChatSessions
          (UserService.saveChatSession db t s msgs now none none none).2 t false,
        c.id = s ∧ c.messages = msgs) ∧
      ∀ c ∈ UserService.getChatSessions
            (UserService.saveChatSession db t s msgs now none none none).2 t false,
        c.id = s → c.messages = msgs := by
  set doc := UserService.chatDocOf t s msgs now with hdoc
  have hchats := saveChatSession_ok_chats db t s msgs now
  constructor
  · simp only [UserService.getChatSessions, if_neg Bool.false_ne_true, hchats]
    refine ⟨_, List.mem_map.mpr ⟨((t, s), doc), ?_, rfl⟩, rfl, rfl⟩
    refine (mem_sortByKeyDesc _ _ _).mpr (List.mem_filter.mpr ⟨?_, by simp⟩)
    exact mem_setEntry_self _ _ _
  · intro c hc hcid
    simp only [UserService.getChatSessions, if_neg Bool.false_ne_true, hchats] at hc
    rcases List.mem_map.mp hc with ⟨⟨⟨t', s'⟩, v⟩, hmem, rfl⟩
    rcases List.mem_filter.mp ((mem_sortByKeyDesc _ _ _).mp hmem) with ⟨hmem', hp⟩
    have ht' : t' = t := by simpa using hp
    have hs' : s' = s := hcid
    subst ht'; subst hs'
    have hv : v = doc :=
      eq_of_mem_of_nodup_keys (nodup_keys_setEntry _ _ hnd) hmem'
        (mem_setEntry_self _ _ _)
    simp [hv, hdoc, UserService.chatDocOf]

/-- Witness for C3: one message round-trips through a fresh store. -/
theorem saveChatSession_roundtrip_witness :
    (∃ c ∈ UserService.getChatSessions
          (UserService.saveChatSession UserService.emptyDB "u" "sess"
            [⟨"m1", "hello", true, 3, none⟩] 7 none none none).2 "u" false,
        c.id = "sess" ∧ c.messages = [⟨"m1", "hello", true, 3, none⟩]) ∧
      ∀ c ∈ UserService.getChatSessions
            (UserService.saveChatSession UserService.emptyDB "u" "sess"
              [⟨"m1", "hello", true, 3, none⟩] 7 none none none).2 "u" false,
        c.id = "sess" → c.messages = [⟨"m1", "hello", true, 3, none⟩] :=
  saveChatSession_roundtrip UserService.emptyDB "u" "sess"
    [⟨"m1", "hello", true, 3, none⟩] 7 (by simp [UserService.emptyDB])

/-- C6: `saveChatSession` first ensures the tenant root document exists —
idempotently: running the ensure step on an already-ensured store is a no-op —
then upserts the chat document; and when the ensure step throws, the chat
write is skipped entirely (the whole store, chats included, is returned
unchanged) and the caller receives the failure. -/
theorem saveChatSession_ensure_first (db : UserService.FirestoreDB)
    (t s : String) (msgs : List UserService.ChatMessage) (now now' : Nat)
    (gFail sFail cFail : Option String) :
    (UserService.ensureUserDocument
        (UserService.ensureUserDocument db t now none none).2 t now' none none =
      (Except.ok (), (UserService.ensureUserDocument db t now none none).2)) ∧
      ((getEntry t
            ((UserService.saveChatSession db t s msgs now none none none).2).users).isSome =
          true ∧
        getEntry (t, s)
            ((UserService.saveChatSession db t s msgs now none none none).2).chats =
          some (UserService.chatDocOf t s msgs now)) ∧
      ((UserService.ensureUserDocument db t now gFail sFail).1 ≠ Except.ok () →
        UserService.saveChatSession db t s msgs now gFail sFail cFail =
          (Except.error "Failed to save chat session", db)) := by
  refine ⟨?_, ⟨?_, ?_⟩, ?_⟩
  · cases h : getEntry t db.users <;>
      simp [UserService.ensureUserDocument, h, getEntry_setEntry_self]
  · cases h : getEntry t db.users <;>
      simp [UserService.saveChatSession, UserService.ensureUserDocument, h,
        getEntry_setEntry_self]
  · rw [saveChatSession_ok_chats db t s msgs now]
    exact getEntry_setEntry_self _ _ _
  · intro hfail
    cases gFail with
    | some m => simp [UserService.saveChatSession, UserService.ensureUserDocument]
    | none =>
      cases h : getEntry t db.users with
      | some d =>
          exact absurd (by simp [UserService.ensureUserDocument, h]) hfail
      | none =>
          cases sFail with
          | some m =>
              simp [UserService.saveChatSession, UserService.ensureUserDocument, h]
          | none =>
              exact absurd (by simp [UserService.ensureUserDocument, h]) hfail

/-- Witness for C6: a store whose root read throws `permission-denied` — the
save fails and the store (chats included) is unchanged. -/
theorem saveChatSession_ensure_first_witness :
    (UserService.ensureUserDocument
        (UserService.ensureUserDocument UserService.emptyDB "u" 3 none none).2 "u" 4
          none none =
      (Except.ok (),
        (UserService.ensureUserDocument UserService.emptyDB "u" 3 none none).2)) ∧
      ((getEntry "u"
            ((UserService.saveChatSession UserService.emptyDB "u" "s" [] 3
              none none none).2).users).isSome = true ∧
        getEntry ("u", "s")
            ((UserService.saveChatSession UserService.emptyDB "u" "s" [] 3
              none none none).2).chats =
          some (UserService.chatDocOf "u" "s" [] 3)) ∧
      UserService.saveChatSession UserService.emptyDB "u" "s" [] 3
          (some "permission-denied") none none =
        (Except.error "Failed to save chat session", UserService.emptyDB) := by
  have h := saveChatSession_ensure_first UserService.emptyDB "u" "s" [] 3 4
    (some "permission-denied") none none
  exact ⟨h.1, h.2.1,
    h.2.2 (by simp [UserService.ensureUserDocument])⟩

/-- Witness for the amended C9: the empty tenant `"u-empty"` on successful
reads gets the all-zero stats record. -/
theorem getUserStats_zero_witness :
    (UserService.getUserStats UserService.emptyDB "u-empty" false false).totalScans = 0 ∧
      (UserService.getUserStats UserService.emptyDB "u-empty" false false).completedScans = 0 ∧
      (UserService.getUserStats UserService.emptyDB "u-empty" false false).totalChats = 0 :=
  getUserStats_zero_on_empty_or_failed UserService.emptyDB "u-empty" false false
    (Or.inr rfl) (Or.inr rfl)

/-! ### Claims about the chat screen controller and the scan orchestrator -/

/-- C4: an accepted chat send (non-blank input, controller not busy) leaves
the local message list with exactly one more user message and exactly one more
reply message than before, whatever the remote call's outcome and whether or
not the background save succeeded; a blank (empty or whitespace-only) send
returns the state and store untouched. -/
theorem askMora_send_message_counts (st : AskMora.ScreenState)
    (user : Option String) (sessionId : String)
    (outcome : MoraService.FetchOutcome) (nowMs : Nat)
    (db : UserService.FirestoreDB) (gFail sFail cFail : Option String) :
    (jsTrim st.message ≠ "" → st.isLoading = false → st.isTyping = false →
        AskMora.countUser
            (AskMora.sendMessage st user sessionId outcome nowMs db
              gFail sFail cFail).1.messages =
          AskMora.countUser st.messages + 1 ∧
          AskMora.countReply
              (AskMora.sendMessage st user sessionId outcome nowMs db
                gFail sFail cFail).1.messages =
            AskMora.countReply st.messages + 1) ∧
      (jsTrim st.message = "" →
        AskMora.sendMessage st user sessionId outcome nowMs db gFail sFail cFail =
          (st, db)) := by
  constructor
  · intro h1 h2 h3
    simp [AskMora.sendMessage, h1, h2, h3, AskMora.countUser, AskMora.countReply,
      List.filter_append]
  · intro h
    simp [AskMora.sendMessage, h]

/-- Witness for C4: the send of `"hi"` from a fresh, non-busy screen. -/
theorem askMora_send_message_counts_witness :
    AskMora.countUser
        (AskMora.sendMessage ⟨"hi", [], false, false⟩ none "s"
          (.success ⟨"ok", none⟩) 3 UserService.emptyDB none none none).1.messages =
      AskMora.countUser ([] : List AskMora.Message) + 1 ∧
      AskMora.countReply
          (AskMora.sendMessage ⟨"hi", [], false, false⟩ none "s"
            (.success ⟨"ok", none⟩) 3 UserService.emptyDB none none none).1.messages =
        AskMora.countReply ([] : List AskMora.Message) + 1 :=
  (askMora_send_message_counts ⟨"hi", [], false, false⟩ none "s"
      (.success ⟨"ok", none⟩) 3 UserService.emptyDB none none none).1
    (by decide) rfl rfl

/-- While no completion has happened and the frame bound cannot be exceeded by
the run, a run of capture firings never completes, never writes to the store,
and never calls `createScanSession`. -/
theorem runTicks_preserves (user : Option String)
    (inputs : List BreastScan.TickInput) :
    ∀ s : BreastScan.ScanState, s.scanCompleted = false →
      s.captureCount + inputs.length ≤ BreastScan.maxCaptures →
      (BreastScan.runTicks s user inputs).scanCompleted = false ∧
        (BreastScan.runTicks s user inputs).db = s.db ∧
        (BreastScan.runTicks s user inputs).createCalls = s.createCalls := by
  induction inputs with
  | nil => intro s h1 _; exact ⟨h1, rfl, rfl⟩
  | cons i rest ih =>
    intro s h1 h2
    have hstep : BreastScan.runTicks s user (i :: rest) =
        BreastScan.runTicks (BreastScan.tick s user i) user rest := rfl
    rw [hstep]
    have hlt : s.captureCount < BreastScan.maxCaptures := by
      simp only [List.length_cons, BreastScan.maxCaptures] at h2 ⊢
      omega
    by_cases hact : s.intervalActive = false
    · rw [show BreastScan.tick s user i = s from by simp [BreastScan.tick, hact]]
      refine ih s h1 ?_
      simp only [List.length_cons] at h2
      omega
    · have hcond : ¬(s.scanCompleted = true ∨
          BreastScan.maxCaptures ≤ s.captureCount) := by
        simp [h1]
        omega
      cases hphoto : i.photo with
      | none =>
          rw [show BreastScan.tick s user i = s from by
            simp [BreastScan.tick, hact, hcond, hphoto]]
          refine ih s h1 ?_
          simp only [List.length_cons] at h2
          omega
      | some b64 =>
          have ht : BreastScan.tick s user i =
              { s with
                capturedImages := s.capturedImages ++ [b64]
                captureCount := s.captureCount + 1
                processingStatus := some i.analysis } := by
            simp [BreastScan.tick, hact, hcond, hphoto]
          rw [ht]
          refine ih _ h1 ?_
          show s.captureCount + 1 + rest.length ≤ BreastScan.maxCaptures
          simp only [List.length_cons] at h2
          omega

/-- C7: `start()` then any run of fewer interval firings than the 5-frame
bound followed by `stop()` puts the orchestrator back in the IDLE
configuration, leaves the document store untouched, and issues zero
`createScanSession` calls for the attempt. -/
theorem startThenStop_idle_no_persist (s₀ : BreastScan.ScanState)
    (user : Option String) (inputs : List BreastScan.TickInput)
    (h : inputs.length < BreastScan.maxCaptures) :
    BreastScan.isIdle
        (BreastScan.stopScan
          (BreastScan.runTicks (BreastScan.startScan s₀) user inputs)) ∧
      (BreastScan.stopScan
          (BreastScan.runTicks (BreastScan.startScan s₀) user inputs)).db = s₀.db ∧
      (BreastScan.stopScan
          (BreastScan.runTicks (BreastScan.startScan s₀) user inputs)).createCalls =
        s₀.createCalls := by
  obtain ⟨_, h2, h3⟩ := runTicks_preserves user inputs (BreastScan.startScan s₀)
    rfl
    (by
      simp only [BreastScan.startScan, BreastScan.maxCaptures] at h ⊢
      omega)
  exact ⟨⟨rfl, rfl, rfl, rfl, rfl, rfl, rfl⟩, h2, h3⟩

/-- Witness for C7: one firing, then stop, starting from a concrete idle
state. -/
theorem startThenStop_idle_no_persist_witness :
    BreastScan.isIdle
        (BreastScan.stopScan
          (BreastScan.runTicks
            (BreastScan.startScan
              ⟨false, false, [], none, 0, false, false, false, 0,
                UserService.emptyDB, 0⟩)
            (some "u")
            [⟨some "img", ⟨UserService.ScanStatus.completed, 100, none, none⟩,
              "id1", 9⟩])) ∧
      (BreastScan.stopScan
          (BreastScan.runTicks
            (BreastScan.startScan
              ⟨false, false, [], none, 0, false, false, false, 0,
                UserService.emptyDB, 0⟩)
            (some "u")
            [⟨some "img", ⟨UserService.ScanStatus.completed, 100, none, none⟩,
              "id1", 9⟩])).db =
        (⟨false, false, [], none, 0, false, false, false, 0,
            UserService.emptyDB, 0⟩ : BreastScan.ScanState).db ∧
      (BreastScan.stopScan
          (BreastScan.runTicks
            (BreastScan.startScan
              ⟨false, false, [], none, 0, false, false, false, 0,
                UserService.emptyDB, 0⟩)
            (some "u")
            [⟨some "img", ⟨UserService.ScanStatus.completed, 100, none, none⟩,
              "id1", 9⟩])).createCalls =
        (⟨false, false, [], none, 0, false, false, false, 0,
            UserService.emptyDB, 0⟩ : BreastScan.ScanState).createCalls :=
  startThenStop_idle_no_persist
    ⟨false, false, [], none, 0, false, false, false, 0, UserService.emptyDB, 0⟩
    (some "u")
    [⟨some "img", ⟨UserService.ScanStatus.completed, 100, none, none⟩, "id1", 9⟩]
    (by decide)

end Femora
